import Mathlib

/-!
Shallow embedding of the yield-scaling and projection pipeline of
`interactive_simulator.py` (Solar_PV_Simulator).

Modelling conventions:
* Python floats are modelled as exact rationals (`ℚ`); "up to floating
  tolerance" statements become exact equalities over `ℚ`.
* The one float behaviour that matters to the claims — division by zero
  producing a non-finite value (`inf`/`NaN`) that keeps flowing through
  subsequent arithmetic — is modelled with `Option ℚ`, where `none` stands
  for a non-finite float.  Multiplying a non-finite value by anything stays
  non-finite, matching IEEE semantics for the inputs that arise here.
* A sample of the AC power time series is a `(timestamp, watts)` pair; for
  the monthly-aggregation functions the relevant attribute of the timestamp
  is its calendar month, so those samples carry `(month, watts)` directly
  (pandas `resample('ME')` groups by the calendar month of the index).
-/

namespace SolarSim

/-- Raw outputs of the external pvlib simulation, as consumed by the
pipeline (`run_simulation`'s return values plus the annual energy totals it
computes internally). -/
structure SimulationRawResult where
  specific_yield_kwh_per_kwp : ℚ
  ac_power_series : List (ℚ × ℚ)
  poa_energy_kwh : ℚ
  dc_energy_kwh : ℚ
  ac_energy_kwh : ℚ

/-- The `loss_proportions` dictionary built at the end of `run_simulation`. -/
structure LossProportions where
  dc_system_loss_ratio : ℚ
  inverter_loss_ratio : ℚ
  final_yield_ratio : ℚ
deriving DecidableEq

/-- `run_simulation` lines 79-94: `dc_system_loss_kwh = poa - dc`,
`inverter_loss_kwh = dc - ac`, `total_energy_input = poa`, and the three
ratios are each loss divided by `total_energy_input`. -/
def run_simulation_loss_proportions (poa_energy_kwh dc_energy_kwh ac_energy_kwh : ℚ) :
    LossProportions :=
  { dc_system_loss_ratio := (poa_energy_kwh - dc_energy_kwh) / poa_energy_kwh
    inverter_loss_ratio := (dc_energy_kwh - ac_energy_kwh) / poa_energy_kwh
    final_yield_ratio := ac_energy_kwh / poa_energy_kwh }

/-- Float division, with `none` for the non-finite result (`inf` or `NaN`)
produced when the denominator is zero. -/
def fdiv (a b : ℚ) : Option ℚ :=
  if b = 0 then none else some (a / b)

/-- Multiplication of a possibly non-finite float by a finite one: a
non-finite operand stays non-finite. -/
def fmul (a : Option ℚ) (b : ℚ) : Option ℚ :=
  a.map (fun x => x * b)

/-- The `scaled_losses` dictionary of `update_gui_results` lines 461-471. -/
structure ScaledLosses where
  poa_energy : Option ℚ
  dc_system_loss : Option ℚ
  inverter_loss : Option ℚ
  final_ac_yield : ℚ
deriving DecidableEq

/-- `update_gui_results` lines 461-471:
`total_energy_input_scaled = real_specific_yield / final_yield_ratio`,
`dc_system_loss_scaled = total * dc_system_loss_ratio`,
`inverter_loss_scaled = total * inverter_loss_ratio`, assembled into the
`scaled_losses` dictionary together with `real_specific_yield`.  The
division is unguarded in the source, hence the `Option` result fields. -/
def reconstruct_scaled_losses (real_specific_yield : ℚ) (lp : LossProportions) :
    ScaledLosses :=
  let total_energy_input_scaled := fdiv real_specific_yield lp.final_yield_ratio
  { poa_energy := total_energy_input_scaled
    dc_system_loss := fmul total_energy_input_scaled lp.dc_system_loss_ratio
    inverter_loss := fmul total_energy_input_scaled lp.inverter_loss_ratio
    final_ac_yield := real_specific_yield }

/-- `update_gui_results` line 457: `real_specific_yield = specific_yield *
system_health_factor`. -/
def real_specific_yield (raw : SimulationRawResult) (health : ℚ) : ℚ :=
  raw.specific_yield_kwh_per_kwp * health

/-- `update_gui_results` line 459: `ac_power * system_health_factor` —
pandas multiplies every power value by the scalar, keeping the index. -/
def scale_series (series : List (ℚ × ℚ)) (health : ℚ) : List (ℚ × ℚ) :=
  series.map (fun p => (p.1, p.2 * health))

/-- `create_economic_plot` lines 176-182: `cumulative_savings[0] = 0` and
for `i ≥ 1`, `cumulative_savings[i] = cumulative_savings[i-1] +
current_yield * price`, where `current_yield` starts at `specific_yield`
and is multiplied by `(1 - annual_degradation_rate)` after each year, so
year `i` adds `specific_yield * (1-rate)^(i-1) * price`. -/
def cumulative_savings (specific_yield price degradation_rate : ℚ) : ℕ → ℚ
  | 0 => 0
  | y + 1 =>
      cumulative_savings specific_yield price degradation_rate y +
        specific_yield * (1 - degradation_rate) ^ y * price

/-- Inner scan of `np.interp x xp fp` for the region `x ≥ xp[0]`: walk the
remaining `(xp, fp)` pairs keeping the previous pair; when `x` first falls
at or below a grid point, interpolate linearly between the previous and the
current pair; when `x` exceeds every grid point, return the last `fp`
(numpy clamps to `fp[-1]`, it never extrapolates). -/
def np_interp_go (x x0 f0 : ℚ) : List (ℚ × ℚ) → ℚ
  | [] => f0
  | (x1, f1) :: rest =>
      if x ≤ x1 then f0 + (f1 - f0) * (x - x0) / (x1 - x0)
      else np_interp_go x x1 f1 rest

/-- `np.interp(x, xp, fp)` on an increasing grid given as `(xp, fp)` pairs:
`fp[0]` below the grid, `fp[-1]` above the grid, linear interpolation
between the bracketing grid points otherwise. -/
def np_interp (x : ℚ) : List (ℚ × ℚ) → ℚ
  | [] => 0
  | (x0, f0) :: rest => if x < x0 then f0 else np_interp_go x x0 f0 rest

/-- `create_economic_plot` lines 174-190: the table
`(-remaining_cost[y], years[y])` for `y = 0..25`, where
`remaining_cost = cost - cumulative_savings`. -/
def payback_points (cost specific_yield price degradation_rate : ℚ) : List (ℚ × ℚ) :=
  (List.range 26).map
    (fun y => (cumulative_savings specific_yield price degradation_rate y - cost, (y : ℚ)))

/-- `create_economic_plot` line 190:
`payback_period = np.interp(0, -remaining_cost, years)`. -/
def payback_period (cost specific_yield price degradation_rate : ℚ) : ℚ :=
  np_interp 0 (payback_points cost specific_yield price degradation_rate)

/-- `update_gui_results` line 479:
`co2_saved_kg = (real_specific_yield * co2_intensity) / 1000`. -/
def co2_saved_kg (real_yield co2_intensity : ℚ) : ℚ :=
  real_yield * co2_intensity / 1000

/-- `create_environmental_plot` lines 213-214:
`cumulative_co2_saved = years * co2_saved_kg`. -/
def cumulative_co2_saved (co2_saved : ℚ) (year : ℕ) : ℚ :=
  (year : ℚ) * co2_saved

/-- Sub-hourly AC power sample for the monthly aggregation: calendar month
of the timestamp (the attribute `resample('ME')` groups by) and power in
watts. -/
abbrev MonthSample : Type := ℕ × ℚ

/-- One month's bin of `ac_power.resample('ME').sum() / 1000`
(`create_plots` line 104): sum the power values whose timestamp falls in
the month, divide by 1000.  The TMY index is hourly, so each sample's
`power * Δt` contribution in watt-hours is its power value. -/
def monthly_energy (series : List MonthSample) (month : ℕ) : ℚ :=
  ((series.filter (fun s => s.1 = month)).map (fun s => s.2)).sum / 1000

/-- `ac_power.resample('ME').sum() / 1000` over a series covering one
calendar year: one `(month, kWh)` bin per calendar month, in order. -/
def aggregate_monthly (series : List MonthSample) : List (ℕ × ℚ) :=
  (List.range 12).map (fun i => (i + 1, monthly_energy series (i + 1)))

/-- Hours in each month of the (non-leap) one-year TMY index. -/
def hours_in_month : ℕ → ℕ
  | 1 => 744 | 2 => 672 | 3 => 744 | 4 => 720
  | 5 => 744 | 6 => 720 | 7 => 744 | 8 => 744
  | 9 => 720 | 10 => 744 | 11 => 720 | 12 => 744
  | _ => 0

/-- Synthetic one-year hourly series of constant 1000 W: for each calendar
month, one sample per hour of that month. -/
def synthetic_year_series : List MonthSample :=
  (List.range 12).flatMap (fun m => List.replicate (hours_in_month (m + 1)) (m + 1, (1000 : ℚ)))

/-- `update_gui_results` line 500: the monthly production stored for CSV
export, `(ac_power.resample('ME').sum() / 1000) * system_health_factor` —
the unscaled monthly totals, each multiplied by the health factor. -/
def export_monthly_production (series : List MonthSample) (health : ℚ) : List (ℕ × ℚ) :=
  (aggregate_monthly series).map (fun p => (p.1, p.2 * health))

/-- The scalar multiplication `ac_power * system_health_factor` of
`update_gui_results` line 459 on a month-tagged series (the chart path
scales first, then aggregates via `create_plots`). -/
def scale_ac_power (series : List MonthSample) (health : ℚ) : List MonthSample :=
  series.map (fun p => (p.1, p.2 * health))

/-- The pieces of GUI state touched by the run lifecycle: the Run button's
enabled state and text, the export button, whether results are shown. -/
structure UIState where
  run_button_enabled : Bool
  run_button_text : String
  export_enabled : Bool
  results_shown : Bool
deriving DecidableEq

/-- GUI state before any run: button ready, no results. -/
def ready_state : UIState :=
  { run_button_enabled := true
    run_button_text := "Run Simulation"
    export_enabled := false
    results_shown := false }

/-- `start_simulation_thread` lines 430-434: spawn the worker, then disable
the Run button and set its text to `Simulating...`. -/
def start_simulation_thread (s : UIState) : UIState :=
  { s with run_button_enabled := false, run_button_text := "Simulating..." }

/-- `simulation_finished` lines 524-525: re-enable the Run button with the
given text. -/
def simulation_finished (button_text : String) (s : UIState) : UIState :=
  { s with run_button_enabled := true, run_button_text := button_text }

/-- `update_gui_results` lines 455-522 as seen by the run lifecycle:
display the results, call `simulation_finished("Run Simulation")`, enable
the export button. -/
def update_gui_results_ui (s : UIState) : UIState :=
  { simulation_finished "Run Simulation" { s with results_shown := true } with
      export_enabled := true }

/-- `run_simulation_task` lines 436-453.  `params` is the outcome of
parsing the entry fields (a raised `ValueError` lands in the `except`
branch); `weather` is `get_tmy_data`'s return value — that function
catches its own download errors, prints to the console and returns `None`;
`sim` is the outcome of `run_simulation` (a raised exception lands in the
`except` branch).  On `weather = None` the body simply falls through: no
`after` callback is scheduled and the state is returned unchanged. -/
def run_simulation_task (params : Except String Unit) (weather : Option Unit)
    (sim : Except String Unit) (s : UIState) : UIState :=
  match params with
  | .error _ => simulation_finished "Error" s
  | .ok _ =>
      match weather with
      | none => s
      | some _ =>
          match sim with
          | .error _ => simulation_finished "Error" s
          | .ok _ => update_gui_results_ui s

/-! ### Helper lemmas -/

theorem filter_flatMap_aux {α β : Type} (p : β → Bool) (f : α → List β) :
    ∀ l : List α, (l.flatMap f).filter p = l.flatMap fun a => (f a).filter p := by
  intro l
  induction l with
  | nil => simp
  | cons a l ih => simp [List.flatMap_cons, List.filter_append, ih]

theorem filter_replicate_aux {α : Type} (p : α → Bool) (a : α) :
    ∀ n : ℕ, (List.replicate n a).filter p =
      if p a then List.replicate n a else [] := by
  intro n
  induction n with
  | zero => simp
  | succ n ih =>
      rw [List.replicate_succ, List.filter_cons, ih]
      by_cases h : p a <;> simp [h, List.replicate_succ]

set_option maxRecDepth 10000 in
theorem synthetic_filter_eq (m : ℕ) (h1 : 1 ≤ m) (h2 : m ≤ 12) :
    synthetic_year_series.filter (fun s => s.1 = m) =
      List.replicate (SolarSim.hours_in_month m) (m, (1000 : ℚ)) := by
  rw [synthetic_year_series, filter_flatMap_aux]
  simp only [filter_replicate_aux]
  interval_cases m <;>
    simp [List.range_succ, hours_in_month]

theorem monthly_energy_synthetic (m : ℕ) (h1 : 1 ≤ m) (h2 : m ≤ 12) :
    monthly_energy synthetic_year_series m = (SolarSim.hours_in_month m : ℚ) := by
  rw [monthly_energy, synthetic_filter_eq m h1 h2]
  rw [List.map_replicate, List.sum_replicate]
  push_cast
  field_simp

theorem monthly_energy_scale (series : List MonthSample) (health : ℚ) (m : ℕ) :
    monthly_energy (scale_ac_power series health) m = monthly_energy series m * health := by
  rw [monthly_energy, monthly_energy, scale_ac_power, List.filter_map, List.map_map]
  have hmap : ((fun s : MonthSample => s.2) ∘ fun p : MonthSample => (p.1, p.2 * health)) =
      fun p : MonthSample => p.2 * health := rfl
  have hpred : ((fun s : MonthSample => decide (s.1 = m)) ∘
      fun p : MonthSample => (p.1, p.2 * health)) = fun s : MonthSample => decide (s.1 = m) := rfl
  rw [hmap, hpred, List.sum_map_mul_right]
  ring

theorem np_interp_go_last (x : ℚ) :
    ∀ (pts : List (ℚ × ℚ)) (x0 f0 : ℚ), (∀ p ∈ pts, p.1 < x) →
      np_interp_go x x0 f0 pts = (pts.getLastD (x0, f0)).2 := by
  intro pts
  induction pts with
  | nil => intro x0 f0 _; rfl
  | cons q rest ih =>
      intro x0 f0 h
      obtain ⟨x1, f1⟩ := q
      have hq : x1 < x := h (x1, f1) (List.mem_cons_self _ _)
      rw [np_interp_go, if_neg (not_le.mpr hq),
        ih x1 f1 (fun p hp => h p (List.mem_cons_of_mem _ hp)), List.getLastD_cons]

theorem cumulative_savings_price_zero (yld deg : ℚ) :
    ∀ y : ℕ, cumulative_savings yld 0 deg y = 0 := by
  intro y
  induction y with
  | zero => rfl
  | succ n ih => simp [cumulative_savings, ih]

/-! ### Claim theorems -/

/-- C1: for every `LossProportions` derived by `run_simulation` with
`final_yield_ratio > 0` and every `real_specific_yield`, the waterfall
reconstruction of `update_gui_results` computes
`total_input = real_specific_yield / final_yield_ratio`,
`dc_loss = total_input * dc_system_loss_ratio` and
`inv_loss = total_input * inverter_loss_ratio`, and these satisfy
`total_input - dc_loss - inv_loss = real_specific_yield` exactly over `ℚ`. -/
theorem loss_waterfall_reconstruction_consistent (poa dc ac rsy : ℚ)
    (h : 0 < (run_simulation_loss_proportions poa dc ac).final_yield_ratio) :
    ∃ total dcl invl : ℚ,
      (reconstruct_scaled_losses rsy (run_simulation_loss_proportions poa dc ac)).poa_energy =
        some total ∧
      (reconstruct_scaled_losses rsy (run_simulation_loss_proportions poa dc ac)).dc_system_loss =
        some dcl ∧
      (reconstruct_scaled_losses rsy (run_simulation_loss_proportions poa dc ac)).inverter_loss =
        some invl ∧
      total = rsy / (run_simulation_loss_proportions poa dc ac).final_yield_ratio ∧
      dcl = total * (run_simulation_loss_proportions poa dc ac).dc_system_loss_ratio ∧
      invl = total * (run_simulation_loss_proportions poa dc ac).inverter_loss_ratio ∧
      total - dcl - invl = rsy := by
  have hratio : (run_simulation_loss_proportions poa dc ac).final_yield_ratio = ac / poa := rfl
  rw [hratio] at h
  have hpoa : poa ≠ 0 := by
    intro hp
    rw [hp, div_zero] at h
    exact lt_irrefl 0 h
  have hac : ac ≠ 0 := by
    intro hp
    rw [hp, zero_div] at h
    exact lt_irrefl 0 h
  have hfin : ac / poa ≠ 0 := ne_of_gt h
  refine ⟨rsy / (ac / poa), rsy / (ac / poa) * ((poa - dc) / poa),
    rsy / (ac / poa) * ((dc - ac) / poa), ?_, ?_, ?_, rfl, rfl, rfl, ?_⟩
  · simp [reconstruct_scaled_losses, fdiv, run_simulation_loss_proportions, hfin]
  · simp [reconstruct_scaled_losses, fdiv, fmul, run_simulation_loss_proportions, hfin]
  · simp [reconstruct_scaled_losses, fdiv, fmul, run_simulation_loss_proportions, hfin]
  · field_simp
    ring

/-- Witness for C1 at `poa = 4`, `dc = 2`, `ac = 1`, `real_specific_yield = 5`. -/
theorem loss_waterfall_reconstruction_consistent_witness :
    ∃ total dcl invl : ℚ,
      (reconstruct_scaled_losses 5 (run_simulation_loss_proportions 4 2 1)).poa_energy =
        some total ∧
      (reconstruct_scaled_losses 5 (run_simulation_loss_proportions 4 2 1)).dc_system_loss =
        some dcl ∧
      (reconstruct_scaled_losses 5 (run_simulation_loss_proportions 4 2 1)).inverter_loss =
        some invl ∧
      total = 5 / (run_simulation_loss_proportions 4 2 1).final_yield_ratio ∧
      dcl = total * (run_simulation_loss_proportions 4 2 1).dc_system_loss_ratio ∧
      invl = total * (run_simulation_loss_proportions 4 2 1).inverter_loss_ratio ∧
      total - dcl - invl = 5 :=
  loss_waterfall_reconstruction_consistent 4 2 1 5
    (by norm_num [run_simulation_loss_proportions])

/-- C2 counterexample: for the degenerate simulation `poa = 1`,
`dc = 1/2`, `ac = 0` (so `final_yield_ratio = 0`, and the health-derated
yield is also `0`), the reconstruction in `update_gui_results` raises no
error at all: it returns a loss record whose `poa`, `dc_loss` and
`inv_loss` entries are the non-finite float (`none`) produced by the
unguarded division — exactly the `inf`/`NaN` propagation the claim says
cannot happen.  No `DegenerateSimulationError` exists in the source. -/
theorem degenerate_reconstruction_no_failure_cex :
    (run_simulation_loss_proportions 1 (1/2) 0).final_yield_ratio = 0 ∧
    (reconstruct_scaled_losses 0 (run_simulation_loss_proportions 1 (1/2) 0)).poa_energy =
      none ∧
    (reconstruct_scaled_losses 0 (run_simulation_loss_proportions 1 (1/2) 0)).dc_system_loss =
      none ∧
    (reconstruct_scaled_losses 0 (run_simulation_loss_proportions 1 (1/2) 0)).inverter_loss =
      none := by
  norm_num [run_simulation_loss_proportions, reconstruct_scaled_losses, fdiv, fmul]

/-- C2 (amended): when `final_yield_ratio = 0` the reconstruction of
`update_gui_results` does not fail — the division is unguarded, and the
resulting non-finite value propagates into every derived loss entry while
the pipeline keeps running with `real_specific_yield` stored unchanged. -/
theorem degenerate_reconstruction_propagates_nonfinite (rsy : ℚ) (lp : LossProportions)
    (h : lp.final_yield_ratio = 0) :
    (reconstruct_scaled_losses rsy lp).poa_energy = none ∧
    (reconstruct_scaled_losses rsy lp).dc_system_loss = none ∧
    (reconstruct_scaled_losses rsy lp).inverter_loss = none ∧
    (reconstruct_scaled_losses rsy lp).final_ac_yield = rsy := by
  simp [reconstruct_scaled_losses, fdiv, fmul, h]

/-- Witness for the amended C2 at `real_specific_yield = 3` and the literal
ratio record `(1/2, 1/2, 0)`. -/
theorem degenerate_reconstruction_propagates_nonfinite_witness :
    (reconstruct_scaled_losses 3 ⟨1/2, 1/2, 0⟩).poa_energy = none ∧
    (reconstruct_scaled_losses 3 ⟨1/2, 1/2, 0⟩).dc_system_loss = none ∧
    (reconstruct_scaled_losses 3 ⟨1/2, 1/2, 0⟩).inverter_loss = none ∧
    (reconstruct_scaled_losses 3 ⟨1/2, 1/2, 0⟩).final_ac_yield = 3 :=
  degenerate_reconstruction_propagates_nonfinite 3 ⟨1/2, 1/2, 0⟩ rfl

/-- C3 counterexample: for `cost = 1500 > 0` and `price = 0` (yield 1100,
degradation 0.5%) the cost is never recovered, yet `create_economic_plot`
returns the numeric year `25.0` — `np.interp` clamps to the last tabulated
year — and `update_gui_results` displays it as `Payback Period 25.0
Years`; no "no payback within horizon" result exists in the source. -/
theorem payback_price_zero_numeric_cex :
    payback_period 1500 1100 0 (1/200) = 25 := by
  norm_num [payback_period, payback_points, np_interp, np_interp_go, cumulative_savings,
    List.range_succ]

/-- C3 (amended): whenever the cumulative savings stay strictly below the
installation cost through every year of the 25-year horizon, the payback
solver returns the numeric value `25` (the end of the horizon, by
`np.interp` clamping — it never extrapolates past the horizon); in
particular this numeric `25` — not a "no payback within horizon" report —
is returned when `price = 0` or `first_year_yield = 0` with `cost > 0`. -/
theorem payback_clamps_to_horizon (cost yld price deg : ℚ)
    (h : ∀ y : ℕ, y ≤ 25 → cumulative_savings yld price deg y < cost) :
    payback_period cost yld price deg = 25 := by
  have h0 : cumulative_savings yld price deg 0 - cost < 0 :=
    sub_neg.mpr (h 0 (by norm_num))
  rw [payback_period, payback_points, List.range_succ_eq_map, List.map_cons, List.map_map,
    np_interp, if_neg (not_lt.mpr h0.le)]
  rw [np_interp_go_last 0 _ _ _ ?side]
  case side =>
    intro p hp
    simp only [List.mem_map, List.mem_range, Function.comp] at hp
    obtain ⟨y, hy, rfl⟩ := hp
    exact sub_neg.mpr (h (y + 1) (by omega))
  have h25 : (List.range 25) = List.range 24 ++ [24] := by decide
  rw [h25, List.map_append, List.map_cons, List.map_nil, List.getLastD_concat]
  norm_num

/-- Witness for the amended C3: `cost = 2000 > 0`, `price = 0`. -/
theorem payback_clamps_to_horizon_witness :
    payback_period 2000 1100 0 (1/200) = 25 :=
  payback_clamps_to_horizon 2000 1100 0 (1/200)
    (by
      intro y hy
      rw [cumulative_savings_price_zero]
      norm_num)

/-- C4: the payback solver accumulates savings year by year over the
25-year horizon under geometric yield decay (each year adds
`first_year_yield * (1-rate)^(y-1) * price`), and for `cost = 1500`,
`first_year_yield = 1100`, `price = 0.30`, `rate = 0.005` the linearly
interpolated crossing of `remaining_cost` with zero lies strictly between
4.58 and 4.59 years — within 0.1 of the undegraded estimate
`1500 / (1100 * 0.30) ≈ 4.545`. -/
theorem payback_interpolation_value :
    (∀ (yld price deg : ℚ) (y : ℕ),
        cumulative_savings yld price deg (y + 1) =
          cumulative_savings yld price deg y + yld * (1 - deg) ^ y * price) ∧
    (458/100 : ℚ) < payback_period 1500 1100 (3/10) (1/200) ∧
    payback_period 1500 1100 (3/10) (1/200) < 459/100 ∧
    |payback_period 1500 1100 (3/10) (1/200) - 1500 / (1100 * (3/10))| < 1/10 := by
  refine ⟨fun yld price deg y => rfl, ?_, ?_, ?_⟩ <;>
    norm_num [payback_period, payback_points, np_interp, np_interp_go, cumulative_savings,
      List.range_succ, abs_lt]

/-- C5: for every health factor in `[0.70, 1.00]`, the rescaling of
`update_gui_results` yields exactly
`raw.specific_yield_kwh_per_kwp * health`, multiplies every sample of the
AC power series by the same factor while preserving timestamps and their
strict ordering, and the yield rescaling is linear in `health`. -/
theorem rescale_linear_and_preserving (raw : SimulationRawResult) (health : ℚ)
    (h1 : 7/10 ≤ health) (h2 : health ≤ 1) :
    real_specific_yield raw health = raw.specific_yield_kwh_per_kwp * health ∧
    (∀ i : ℕ, (scale_series raw.ac_power_series health)[i]? =
      (raw.ac_power_series[i]?).map (fun p => (p.1, p.2 * health))) ∧
    (scale_series raw.ac_power_series health).map Prod.fst =
      raw.ac_power_series.map Prod.fst ∧
    (List.Pairwise (fun a b : ℚ × ℚ => a.1 < b.1) raw.ac_power_series →
      List.Pairwise (fun a b : ℚ × ℚ => a.1 < b.1) (scale_series raw.ac_power_series health)) ∧
    (∀ a b : ℚ, real_specific_yield raw (a + b) =
      real_specific_yield raw a + real_specific_yield raw b) ∧
    (∀ c h' : ℚ, real_specific_yield raw (c * h') = c * real_specific_yield raw h') := by
  refine ⟨rfl, ?_, ?_, ?_, ?_, ?_⟩
  · intro i
    simp [scale_series]
  · simp [scale_series, List.map_map]
  · intro hp
    exact List.Pairwise.map _ (fun a b hab => hab) hp
  · intro a b
    simp [real_specific_yield]
    ring
  · intro c h'
    simp [real_specific_yield]
    ring

/-- Witness for C5 at a two-sample raw result and `health = 0.95`. -/
theorem rescale_linear_and_preserving_witness :
    real_specific_yield ⟨100, [(0, 10), (1, 20)], 3, 2, 1⟩ (19/20) =
      SimulationRawResult.specific_yield_kwh_per_kwp ⟨100, [(0, 10), (1, 20)], 3, 2, 1⟩ *
        (19/20) :=
  (rescale_linear_and_preserving ⟨100, [(0, 10), (1, 20)], 3, 2, 1⟩ (19/20)
    (by norm_num) (by norm_num)).1

/-- C6: the CO₂ projection of `update_gui_results` and
`create_environmental_plot` computes
`annual_kg = real_specific_yield * grid_co2_intensity / 1000` and a
degradation-free cumulative curve `cumulative[y] = annual_kg * y`; at
`real_specific_yield = 1000` and intensity `434 g/kWh` this gives
`annual_kg = 434` and cumulative `4340` at year 10. -/
theorem co2_projection_linear :
    (∀ real_yield co2_intensity : ℚ,
        co2_saved_kg real_yield co2_intensity = real_yield * co2_intensity / 1000) ∧
    (∀ (saved : ℚ) (year : ℕ), cumulative_co2_saved saved year = saved * year) ∧
    co2_saved_kg 1000 434 = 434 ∧
    cumulative_co2_saved (co2_saved_kg 1000 434) 10 = 4340 := by
  refine ⟨fun _ _ => rfl, fun saved year => mul_comm _ _, by norm_num [co2_saved_kg],
    by norm_num [cumulative_co2_saved, co2_saved_kg]⟩

/-- C7: for energies with `poa ≥ dc ≥ ac ≥ 0` and `poa > 0`, the three
ratios built by `run_simulation` each lie in `[0, 1]` and sum to exactly
`1` over `ℚ`. -/
theorem loss_ratios_unit_interval_sum_one (poa dc ac : ℚ)
    (h0 : 0 ≤ ac) (h1 : ac ≤ dc) (h2 : dc ≤ poa) (hp : 0 < poa) :
    0 ≤ (run_simulation_loss_proportions poa dc ac).dc_system_loss_ratio ∧
    (run_simulation_loss_proportions poa dc ac).dc_system_loss_ratio ≤ 1 ∧
    0 ≤ (run_simulation_loss_proportions poa dc ac).inverter_loss_ratio ∧
    (run_simulation_loss_proportions poa dc ac).inverter_loss_ratio ≤ 1 ∧
    0 ≤ (run_simulation_loss_proportions poa dc ac).final_yield_ratio ∧
    (run_simulation_loss_proportions poa dc ac).final_yield_ratio ≤ 1 ∧
    (run_simulation_loss_proportions poa dc ac).dc_system_loss_ratio +
      (run_simulation_loss_proportions poa dc ac).inverter_loss_ratio +
      (run_simulation_loss_proportions poa dc ac).final_yield_ratio = 1 := by
  have hp' : poa ≠ 0 := ne_of_gt hp
  refine ⟨div_nonneg (by linarith) hp.le, (div_le_one hp).mpr (by linarith),
    div_nonneg (by linarith) hp.le, (div_le_one hp).mpr (by linarith),
    div_nonneg (by linarith) hp.le, (div_le_one hp).mpr (by linarith), ?_⟩
  rw [run_simulation_loss_proportions]
  field_simp

/-- Witness for C7 at `poa = 4`, `dc = 2`, `ac = 1`. -/
theorem loss_ratios_unit_interval_sum_one_witness :
    0 ≤ (run_simulation_loss_proportions 4 2 1).dc_system_loss_ratio ∧
    (run_simulation_loss_proportions 4 2 1).dc_system_loss_ratio ≤ 1 ∧
    0 ≤ (run_simulation_loss_proportions 4 2 1).inverter_loss_ratio ∧
    (run_simulation_loss_proportions 4 2 1).inverter_loss_ratio ≤ 1 ∧
    0 ≤ (run_simulation_loss_proportions 4 2 1).final_yield_ratio ∧
    (run_simulation_loss_proportions 4 2 1).final_yield_ratio ≤ 1 ∧
    (run_simulation_loss_proportions 4 2 1).dc_system_loss_ratio +
      (run_simulation_loss_proportions 4 2 1).inverter_loss_ratio +
      (run_simulation_loss_proportions 4 2 1).final_yield_ratio = 1 :=
  loss_ratios_unit_interval_sum_one 4 2 1 (by norm_num) (by norm_num) (by norm_num)
    (by norm_num)

/-- C8: the monthly aggregation of `create_plots` (`resample('ME').sum() /
1000` over the hourly series) produces exactly 12 `(month, kWh)` pairs,
and over a synthetic one-year hourly series of constant 1000 W each
month's kWh equals `1.0 *` the number of hours in that month. -/
theorem aggregate_monthly_synthetic_year :
    (aggregate_monthly synthetic_year_series).length = 12 ∧
    aggregate_monthly synthetic_year_series =
      (List.range 12).map (fun i => (i + 1, (SolarSim.hours_in_month (i + 1) : ℚ))) := by
  constructor
  · simp [aggregate_monthly]
  · rw [aggregate_monthly]
    apply List.map_congr_left
    intro i hi
    simp only [List.mem_range] at hi
    rw [monthly_energy_synthetic (i + 1) (by omega) (by omega)]

/-- C9: when the weather fetch fails (`get_tmy_data` swallows the error
and returns `None`), `run_simulation_task` falls through without
scheduling any UI callback: the Run button stays disabled with the text
`Simulating...`, no message reaches the GUI, and no results are shown —
the UI never reverts to a ready state. -/
theorem weather_failure_leaves_ui_stuck :
    run_simulation_task (Except.ok ()) none (Except.ok ())
        (start_simulation_thread ready_state) =
      start_simulation_thread ready_state ∧
    (start_simulation_thread ready_state).run_button_enabled = false ∧
    (start_simulation_thread ready_state).run_button_text = "Simulating..." ∧
    (start_simulation_thread ready_state).results_shown = false :=
  ⟨rfl, rfl, rfl, rfl⟩

/-- C10: scaling by the system-health factor commutes with the monthly
aggregation: scaling each power sample and then summing per calendar month
(the chart path, `create_plots` on `ac_power * factor`) gives the same 12
monthly totals as summing first and scaling each monthly total (the CSV
path of `update_gui_results` line 500). -/
theorem scale_commutes_with_monthly_aggregation (series : List MonthSample) (health : ℚ) :
    aggregate_monthly (scale_ac_power series health) =
      export_monthly_production series health := by
  rw [export_monthly_production, aggregate_monthly, aggregate_monthly, List.map_map]
  apply List.map_congr_left
  intro i _
  simp only [Function.comp]
  rw [monthly_energy_scale series health (i + 1)]

end SolarSim
